import Mathlib

/-!
# Verification of the Verona runtime scheduler thread

A shallow embedding of `src/rt/sched/schedulerthread.h` from the Verona
runtime, together with proofs of the scheduler's documented properties.

The C++ class `SchedulerThread<T>` drives a per-core worker loop: it pops
cowns from a per-core queue, steals from victims, participates in the
leak-detection (LD) epoch protocol, and periodically collects cown stubs.
Each Lean definition below is a direct translation of the corresponding
member function; external collaborators (the global epoch predicate, the
queues, the thread-pool coordinator) appear as explicit parameters or as
oracle inputs recording what the collaborator returned.
-/

namespace VeronaSched

/-- Enum `EpochMark` from `object/object.h` as used by the scheduler: the epoch
a message/cown is tagged with. -/
inductive EpochMark where
  | EPOCH_A
  | EPOCH_B
  | EPOCH_NONE
deriving DecidableEq, Repr

/-- Enum `ThreadState::State`: the per-worker leak-detector protocol state. -/
inductive ThreadState where
  | NotInLD
  | WantLD
  | PreScan
  | Scan
  | AllInScan
  | BelieveDone_Vote
  | BelieveDone
  | BelieveDone_Confirm
  | BelieveDone_Retract
  | ReallyDone_Confirm
  | Sweep
  | Finished
deriving DecidableEq, Repr

/-! ## Cown stubs and `collect_cown_stubs` -/

/-- The fields of a cown stub that `collect_cown_stubs` reads.
`epoch_when_popped = none` models the sentinel `T::NO_EPOCH_SET`
(`some e` is a concrete global-epoch value).  `cid` is the identity of
the stub (the pointer value), irrelevant to the algorithm. -/
structure Cown where
  cid : Nat
  weak_count : Nat
  epoch_when_popped : Option Nat
deriving DecidableEq, Repr

/-- Test `epoch == T::NO_EPOCH_SET || GlobalEpoch::is_outdated(epoch)` —
the reclamation test applied to `c->epoch_when_popped`.  The external
`GlobalEpoch::is_outdated` is the parameter `isOutdated`. -/
def stub_outdated (isOutdated : Nat → Bool) (c : Cown) : Bool :=
  match c.epoch_when_popped with
  | none => true
  | some e => isOutdated e

/-- The `while (*p != nullptr)` loop of `collect_cown_stubs`, traversing
the drained registry list head first.  Returns the retained list (relinked
in order, as the pointer-to-pointer splice does) and the list of stubs
passed to `c->dealloc` (whose length is `removed_count`).  A cown unlinked
by the `detect_leaks` branch appears in neither list and is not counted. -/
def collect_loop (during_teardown detect_leaks : Bool) (isOutdated : Nat → Bool) :
    List Cown → List Cown × List Cown
  | [] => ([], [])
  | c :: rest =>
    if c.weak_count == 0 || during_teardown then
      if (c.weak_count != 0) && detect_leaks then
        -- `*p = c->next; continue;` — leak branch: unlink, no dealloc, no count
        collect_loop during_teardown detect_leaks isOutdated rest
      else if stub_outdated isOutdated c then
        -- `removed_count++; *p = c->next; c->dealloc(*alloc); continue;`
        let r := collect_loop during_teardown detect_leaks isOutdated rest
        (r.1, c :: r.2)
      else
        -- not outdated: fall through to `tail = c; p = &(c->next);`
        let r := collect_loop during_teardown detect_leaks isOutdated rest
        (c :: r.1, r.2)
    else
      -- weak count nonzero outside teardown: retain
      let r := collect_loop during_teardown detect_leaks isOutdated rest
      (c :: r.1, r.2)

/-- The per-core counters `collect_cown_stubs` updates, with the registry
list that `core->drain()` hands out and `core->add_cowns` puts back.
The counters are `size_t` in C++; we use `Int` so that the decrement is
exact (the runtime keeps them nonnegative). -/
structure CoreState where
  cowns : List Cown
  free_cowns : Int
  total_cowns : Int
deriving DecidableEq, Repr

/-- Function `collect_cown_stubs<during_teardown>()` (lines 688–771): early return
while in `ReallyDone_Confirm`/`Finished`, otherwise drain the registry,
run the splice loop, put the retained list back and subtract
`removed_count` from both counters.  The second component is the list of
stubs deallocated by this call. -/
def collect_cown_stubs (during_teardown : Bool) (detect_leaks : Bool)
    (isOutdated : Nat → Bool) (state : ThreadState) (core : CoreState) :
    CoreState × List Cown :=
  match state with
  | ThreadState.ReallyDone_Confirm => (core, [])
  | ThreadState.Finished => (core, [])
  | _ =>
    let r := collect_loop during_teardown detect_leaks isOutdated core.cowns
    ({ cowns := r.1,
       free_cowns := core.free_cowns - r.2.length,
       total_cowns := core.total_cowns - r.2.length }, r.2)

/-! ## Pointer tagging and `prerun` -/

/-- Queue entries are `T*` pointers whose low bit marks a token cown;
we model them as natural-number addresses. -/
abbrev Ptr := Nat

/-- Computes `(uintptr_t)cown & 1`. -/
def has_thread_bit (v : Ptr) : Bool :=
  v % 2 == 1

/-- Computes `(T*)((uintptr_t)cown & ~(uintptr_t)1)`. -/
def clear_thread_bit (v : Ptr) : Ptr :=
  2 * (v / 2)

/-- The part of a cown object that `prerun` reads through the pointer:
`owning_core()`, a possibly-null `Core<T>*` (cores are identified by
number). -/
structure CownObj where
  owning_core : Option Nat
deriving DecidableEq, Repr

/-- The heap the scheduler dereferences pointers against. -/
abbrev Heap := Nat → CownObj

/-- Function `dec_n_ld_tokens()`: asserts `n_ld_tokens == 1 || n_ld_tokens == 2`
then decrements.  The assertion failure is modelled as `none`. -/
def dec_n_ld_tokens (n : Nat) : Option Nat :=
  if n = 1 ∨ n = 2 then some (n - 1) else none

/-- The outcome of `prerun(cown)`: the returned `bool`, the updated
per-worker fields, the `q.enqueue` calls issued (target core paired with
the enqueued value) and whether the registration branch ran
(`set_owning_core`/`add_cown`/`total_cowns++`). -/
structure PrerunResult where
  is_cown : Bool
  ssf : Bool
  n_ld_tokens : Nat
  enqueues : List (Nat × Ptr)
  registered : Bool
deriving DecidableEq, Repr

/-- Function `prerun` (lines 462–509).  Inputs: the global `fair` flag, the heap,
this worker's core, the current `should_steal_for_fairness` and
`n_ld_tokens`, and the popped value.  `none` models undefined behaviour:
a token whose owning core pointer is null (the code dereferences it
unconditionally) or a failed `dec_n_ld_tokens` assertion. -/
def prerun (fair : Bool) (heap : Heap) (selfCore : Nat) (ssf : Bool)
    (nld : Nat) (v : Ptr) : Option PrerunResult :=
  if has_thread_bit v then
    match (heap (clear_thread_bit v)).owning_core with
    | none => none
    | some oc =>
      if oc = selfCore then
        match (if 0 < nld then dec_n_ld_tokens nld else some nld) with
        | none => none
        | some nld2 =>
          some { is_cown := false
                 ssf := if fair then true else ssf
                 n_ld_tokens := nld2
                 enqueues := [(oc, v)]
                 registered := false }
      else
        some { is_cown := false, ssf := ssf, n_ld_tokens := nld
               enqueues := [(oc, v)], registered := false }
  else
    if (heap v).owning_core = none then
      some { is_cown := true, ssf := ssf, n_ld_tokens := nld
             enqueues := [], registered := true }
    else
      some { is_cown := true, ssf := ssf, n_ld_tokens := nld
             enqueues := [], registered := false }

/-- The gate in `run_inner` between popping a value and calling
`cown->run` (lines 208–246): if `prerun` returns false the slot is
cleared and the iteration restarts, so the value handed to `run` — the
result when `some` — is the popped value itself, only when `prerun`
returned true.  None of the intervening statements (scan hint,
`ld_protocol`, progress accounting) writes `cown`. -/
def run_dispatch (fair : Bool) (heap : Heap) (selfCore : Nat) (ssf : Bool)
    (nld : Nat) (v : Ptr) : Option Ptr :=
  match prerun fair heap selfCore ssf nld v with
  | some r => if r.is_cown then some v else none
  | none => none

/-! ## The reschedule policy of `run_inner` -/

/-- Oracle inputs for the `reschedule` block: what `core->q.dequeue`
returned, what `core->q.nothing_old()` returned, the global `fair` flag,
and the result of `fast_steal` (performed only when consulted). -/
structure ReschedEnv where
  localPop : Option Ptr
  nothingOld : Bool
  fair : Bool
  fastStealResult : Option Ptr
deriving DecidableEq, Repr

/-- Outcome of the reschedule block: the `cown` slot afterwards, the
values passed to `schedule_fifo` (tail enqueues on this core, in order),
and the updated `n_ld_tokens`. -/
structure ReschedResult where
  slot : Option Ptr
  enqueued : List Ptr
  n_ld_tokens : Nat
deriving DecidableEq, Repr

/-- The `if (reschedule)` block of `run_inner` (lines 248–298), given the
just-run cown, the worker's `should_steal_for_fairness` and
`n_ld_tokens`, and the queue/steal oracle. -/
def reschedule (env : ReschedEnv) (ssf : Bool) (nld : Nat) (cown : Ptr) :
    ReschedResult :=
  if ssf then
    { slot := none, enqueued := [cown], n_ld_tokens := nld }
  else
    match env.localPop with
    | some n => { slot := some n, enqueued := [cown], n_ld_tokens := nld }
    | none =>
      if env.nothingOld then
        -- `n_ld_tokens = 0;` then `if (fair && fast_steal(stolen))`
        match (if env.fair then env.fastStealResult else none) with
        | some stolen => { slot := some stolen, enqueued := [cown], n_ld_tokens := 0 }
        | none => { slot := some cown, enqueued := [], n_ld_tokens := 0 }
      else
        { slot := some cown, enqueued := [], n_ld_tokens := nld }

/-! ## The LD epoch machine: `enter_prescan` and `enter_scan` -/

/-- The per-worker fields written by `enter_prescan`/`enter_scan`,
plus a count of `core->scan()` invocations (the registry scan is
external; we record that it was called). -/
structure LdCtx where
  send_epoch : EpochMark
  prev_epoch : EpochMark
  n_ld_tokens : Nat
  scheduled_unscanned_cown : Bool
  core_scans : Nat
deriving DecidableEq, Repr

/-- Field initialisers of `SchedulerThread` (lines 67–74):
`send_epoch = EPOCH_A`, `prev_epoch = EPOCH_B`, `n_ld_tokens = 0`,
`scheduled_unscanned_cown = false`. -/
def ldInit : LdCtx :=
  { send_epoch := EpochMark.EPOCH_A
    prev_epoch := EpochMark.EPOCH_B
    n_ld_tokens := 0
    scheduled_unscanned_cown := false
    core_scans := 0 }

/-- Function `enter_prescan()` (lines 654–665): save `prev_epoch = send_epoch`,
set `send_epoch = EPOCH_NONE`. -/
def enter_prescan (c : LdCtx) : LdCtx :=
  { c with prev_epoch := c.send_epoch, send_epoch := EpochMark.EPOCH_NONE }

/-- Function `enter_scan()` (lines 667–680): flip `send_epoch` to the opposite of
`prev_epoch`, call `core->scan()`, set `n_ld_tokens = 2`, clear
`scheduled_unscanned_cown`. -/
def enter_scan (c : LdCtx) : LdCtx :=
  { c with
    send_epoch := if c.prev_epoch = EpochMark.EPOCH_B then EpochMark.EPOCH_A
                  else EpochMark.EPOCH_B
    core_scans := c.core_scans + 1
    n_ld_tokens := 2
    scheduled_unscanned_cown := false }

/-- The `case ThreadState::Scan` action of `ld_protocol` (lines 599–605):
when the previous state was not `PreScan`, `enter_prescan` runs first,
then `enter_scan`. -/
def scan_case_actions (sprev : ThreadState) (c : LdCtx) : LdCtx :=
  enter_scan (if sprev = ThreadState.PreScan then c else enter_prescan c)

/-- The two operations `ld_protocol` performs on the epoch fields, in
whatever order its state transitions dictate. -/
inductive LdOp where
  | prescan
  | scan
deriving DecidableEq, Repr

def ldOpApply (c : LdCtx) : LdOp → LdCtx
  | LdOp.prescan => enter_prescan c
  | LdOp.scan => enter_scan c

/-- The worker's epoch fields after `ld_protocol` has invoked an
arbitrary sequence of `enter_prescan`/`enter_scan` calls, starting from
the field initialisers. -/
def ldRun (ops : List LdOp) : LdCtx :=
  List.foldl ldOpApply ldInit ops

/-- The legal `send_epoch` changes: the cycle
EPOCH_A → EPOCH_NONE → EPOCH_B → EPOCH_NONE → EPOCH_A. -/
def epochCycleStep : EpochMark → EpochMark → Bool
  | EpochMark.EPOCH_A, EpochMark.EPOCH_NONE => true
  | EpochMark.EPOCH_NONE, EpochMark.EPOCH_B => true
  | EpochMark.EPOCH_B, EpochMark.EPOCH_NONE => true
  | EpochMark.EPOCH_NONE, EpochMark.EPOCH_A => true
  | _, _ => false

/-! ## The steal loop and pausing -/

/-- Constant `TSC_QUIESCENCE_TIMEOUT` (line 49). -/
def TSC_QUIESCENCE_TIMEOUT : Nat := 1000000

/-- Oracle inputs to one body of the `while (running)` loop in `steal`
under the production (non-systematic-testing) configuration:
the local `dequeue` result, whether `victim == core`, the victim
`dequeue` result, and `tsc2 - tsc`, the timestamp-counter delta. -/
structure StealObs where
  localPop : Option Ptr
  victimIsSelf : Bool
  victimPop : Option Ptr
  tscDelta : Nat
deriving DecidableEq, Repr

/-- How one iteration of the steal loop ends. -/
inductive StealStepResult where
  /-- Case `return cown;` — a cown was obtained. -/
  | ret (c : Ptr)
  /-- Case `Aal::pause(); continue;` — the backoff has not elapsed. -/
  | spinContinue
  /-- Case where `Scheduler::get().pause()` was called — the worker parks. -/
  | pauseCall
  /-- fell past the backoff without parking (not in `NotInLD`). -/
  | noPause
deriving DecidableEq, Repr

/-- One body of the steal loop (lines 378–438), production configuration,
from the local re-check onwards.  `state` is the worker's LD state at the
`state == ThreadState::NotInLD` test (i.e. after this iteration's
`ld_protocol` step). -/
def steal_iter (state : ThreadState) (obs : StealObs) : StealStepResult :=
  match obs.localPop with
  | some c => StealStepResult.ret c
  | none =>
    match (if obs.victimIsSelf then none else obs.victimPop) with
    | some c => StealStepResult.ret c
    | none =>
      if obs.tscDelta < TSC_QUIESCENCE_TIMEOUT then
        StealStepResult.spinContinue
      else if state = ThreadState.NotInLD then
        StealStepResult.pauseCall
      else
        StealStepResult.noPause

/-! ## Writes to `n_ld_tokens` across the scheduler -/

/-- Every write or guarded decrement the scheduler performs on
`n_ld_tokens`:
`resetRunInner` — `n_ld_tokens = 0` in the reschedule block (line 275);
`resetSteal` — `n_ld_tokens = 0` when `nothing_old()` holds in `steal`
(line 384); `scanSet2` — `n_ld_tokens = 2` in `enter_scan` (line 677);
`tokenLocalPop` — the guarded `dec_n_ld_tokens` call in `prerun`
(lines 479–482); `tokenRemotePop` — a pop of a token owned by another
core, which skips the decrement (lines 486–490). -/
inductive LdTokEvent where
  | resetRunInner
  | resetSteal
  | scanSet2
  | tokenLocalPop
  | tokenRemotePop
deriving DecidableEq, Repr

/-- Effect of one event on `n_ld_tokens`; `none` is a failed
`dec_n_ld_tokens` assertion. -/
def ldTokStep (n : Nat) : LdTokEvent → Option Nat
  | LdTokEvent.resetRunInner => some 0
  | LdTokEvent.resetSteal => some 0
  | LdTokEvent.scanSet2 => some 2
  | LdTokEvent.tokenLocalPop => if 0 < n then dec_n_ld_tokens n else some n
  | LdTokEvent.tokenRemotePop => some n

/-- Value of `n_ld_tokens` after a sequence of events starting from the field
initialiser `uint8_t n_ld_tokens = 0` (line 67). -/
def ldTokRun (evs : List LdTokEvent) : Option Nat :=
  List.foldl (fun o e => Option.bind o (fun n => ldTokStep n e)) (some 0) evs

/-! ## Theorems -/

/-- Outside teardown the splice loop keeps exactly the cowns that are not
(weak-count zero and epoch-outdated), and deallocates exactly the others,
in registry order. -/
theorem collect_loop_no_teardown (dl : Bool) (iso : Nat → Bool) (l : List Cown) :
    collect_loop false dl iso l =
      (l.filter (fun c => !(c.weak_count == 0 && stub_outdated iso c)),
       l.filter (fun c => c.weak_count == 0 && stub_outdated iso c)) := by
  induction l with
  | nil => rfl
  | cons c rest ih =>
    by_cases hw : c.weak_count = 0
    · by_cases ho : stub_outdated iso c = true <;>
        simp [collect_loop, hw, ho, List.filter, ih]
    · have hfb : (c.weak_count == 0) = false := by simpa using hw
      simp [collect_loop, hfb, List.filter, ih]

/-- C1: in a non-teardown run of `collect_cown_stubs` that is not
inhibited by the LD state, a registered cown with `weak_count == 0` is
unlinked and deallocated iff `epoch_when_popped` is the `NO_EPOCH_SET`
sentinel or `GlobalEpoch::is_outdated` holds of it; every other cown is
retained (re-inserted in order), and `free_cowns` and `total_cowns` each
drop by exactly the number of deallocated cowns. -/
theorem collect_stubs_non_teardown_spec (dl : Bool) (iso : Nat → Bool)
    (st : ThreadState) (core : CoreState)
    (h1 : st ≠ ThreadState.ReallyDone_Confirm)
    (h2 : st ≠ ThreadState.Finished) :
    collect_cown_stubs false dl iso st core =
      ({ cowns :=
           core.cowns.filter (fun c => !(c.weak_count == 0 && stub_outdated iso c)),
         free_cowns := core.free_cowns -
           (core.cowns.filter (fun c => c.weak_count == 0 && stub_outdated iso c)).length,
         total_cowns := core.total_cowns -
           (core.cowns.filter (fun c => c.weak_count == 0 && stub_outdated iso c)).length },
       core.cowns.filter (fun c => c.weak_count == 0 && stub_outdated iso c)) := by
  cases st <;> simp_all [collect_cown_stubs, collect_loop_no_teardown]

/-- Witness for C1: a two-cown registry under an always-outdated epoch;
the weak-count-zero cown is deallocated, the other retained, both
counters drop by one. -/
theorem collect_stubs_non_teardown_spec_witness :
    (ThreadState.NotInLD ≠ ThreadState.ReallyDone_Confirm) ∧
    (ThreadState.NotInLD ≠ ThreadState.Finished) ∧
    collect_cown_stubs false false (fun _ => true) ThreadState.NotInLD
        ⟨[⟨1, 0, some 5⟩, ⟨2, 1, none⟩], 1, 2⟩ =
      ({ cowns := [⟨2, 1, none⟩], free_cowns := 0, total_cowns := 1 },
       [⟨1, 0, some 5⟩]) :=
  ⟨by decide, by decide,
   (collect_stubs_non_teardown_spec false (fun _ => true) ThreadState.NotInLD
      ⟨[⟨1, 0, some 5⟩, ⟨2, 1, none⟩], 1, 2⟩ (by decide) (by decide)).trans
     (by decide)⟩

/-- C8: with the worker in `ReallyDone_Confirm` or `Finished`,
`collect_cown_stubs` returns at once — the registry and both counters
are unchanged and nothing is deallocated. -/
theorem collect_stubs_inhibited (t dl : Bool) (iso : Nat → Bool)
    (core : CoreState) :
    collect_cown_stubs t dl iso ThreadState.ReallyDone_Confirm core = (core, []) ∧
    collect_cown_stubs t dl iso ThreadState.Finished core = (core, []) :=
  ⟨rfl, rfl⟩

/-- C9: during teardown, a cown with nonzero weak count is, when
`detect_leaks` is on, unlinked without being deallocated and without
being counted (the loop result is as if the cown were absent); when
`detect_leaks` is off it falls through to the epoch-outdated check and
is deallocated or retained by that check alone, exactly as a
`weak_count == 0` cown would be. -/
theorem collect_loop_teardown_leak (iso : Nat → Bool) (c : Cown)
    (rest : List Cown) (h : c.weak_count ≠ 0) :
    collect_loop true true iso (c :: rest) = collect_loop true true iso rest ∧
    collect_loop true false iso (c :: rest) =
      (if stub_outdated iso c then
        ((collect_loop true false iso rest).1,
         c :: (collect_loop true false iso rest).2)
       else
        (c :: (collect_loop true false iso rest).1,
         (collect_loop true false iso rest).2)) := by
  constructor
  · simp [collect_loop, h]
  · by_cases ho : stub_outdated iso c = true <;> simp [collect_loop, h, ho]

/-- Witness for C9: a leaked cown (weak count 1) under teardown: dropped
without dealloc when `detect_leaks` is on, deallocated by the outdated
check when off. -/
theorem collect_loop_teardown_leak_witness :
    (Cown.mk 3 1 (some 5)).weak_count ≠ 0 ∧
    (collect_loop true true (fun _ => true) [⟨3, 1, some 5⟩] =
        collect_loop true true (fun _ => true) [] ∧
     collect_loop true false (fun _ => true) [⟨3, 1, some 5⟩] =
      (if stub_outdated (fun _ => true) ⟨3, 1, some 5⟩ then
        ((collect_loop true false (fun _ => true) []).1,
         Cown.mk 3 1 (some 5) :: (collect_loop true false (fun _ => true) []).2)
       else
        (Cown.mk 3 1 (some 5) :: (collect_loop true false (fun _ => true) []).1,
         (collect_loop true false (fun _ => true) []).2))) :=
  ⟨by decide,
   collect_loop_teardown_leak (fun _ => true) ⟨3, 1, some 5⟩ [] (by decide)⟩

/-- C2: a value carrying the thread bit makes `prerun` return false (or
trip undefined behaviour, which also dispatches nothing), so the worker
main loop clears the slot and never reaches `cown->run`; whenever the
loop does dispatch, the dispatched value is the popped one and its
thread bit is zero. -/
theorem token_never_dispatched (fair : Bool) (heap : Heap) (selfCore : Nat)
    (ssf : Bool) (nld : Nat) (v c : Ptr)
    (h : run_dispatch fair heap selfCore ssf nld v = some c) :
    has_thread_bit c = false ∧ c = v := by
  by_cases hb : has_thread_bit v = true
  · exfalso
    unfold run_dispatch prerun at h
    rcases hoc : (heap (clear_thread_bit v)).owning_core with _ | oc
    · simp [hb, hoc] at h
    · by_cases hself : oc = selfCore
      · rcases hd : (if 0 < nld then dec_n_ld_tokens nld else some nld) with _ | m <;>
          simp [hb, hoc, hself, hd] at h
      · simp [hb, hoc, hself] at h
  · have hb2 : has_thread_bit v = false := by simpa using hb
    unfold run_dispatch prerun at h
    by_cases h0 : (heap v).owning_core = none <;>
      simp [hb2, h0] at h <;> simp [hb2, ← h]

/-- Witness for C2: an unregistered plain cown (even address) is
dispatched, and its thread bit is zero. -/
theorem token_never_dispatched_witness :
    run_dispatch true (fun _ => CownObj.mk none) 0 false 0 2 = some 2 ∧
    (has_thread_bit 2 = false ∧ 2 = 2) :=
  ⟨rfl, token_never_dispatched true (fun _ => CownObj.mk none) 0 false 0 2 2 rfl⟩

/-- C3: popping a token (thread bit set, owning core defined, the
`n_ld_tokens ∈ {0,1,2}` invariant in force): `prerun` reports "not a
cown", re-enqueues the token on its owning core's queue, and — only when
the token is this core's — sets `should_steal_for_fairness` exactly when
the global `fair` flag is on and decrements `n_ld_tokens` exactly when
it is positive; a token owned by another core changes neither field. -/
theorem prerun_token_spec (fair : Bool) (heap : Heap) (selfCore oc : Nat)
    (ssf : Bool) (nld : Nat) (v : Ptr)
    (hbit : has_thread_bit v = true)
    (hown : (heap (clear_thread_bit v)).owning_core = some oc)
    (hnld : nld ≤ 2) :
    prerun fair heap selfCore ssf nld v =
      some { is_cown := false
             ssf := if oc = selfCore then (if fair then true else ssf) else ssf
             n_ld_tokens := if oc = selfCore ∧ 0 < nld then nld - 1 else nld
             enqueues := [(oc, v)]
             registered := false } := by
  unfold prerun
  by_cases hself : oc = selfCore
  · rcases nld with _ | _ | _ | m
    · simp [hbit, hown, hself, dec_n_ld_tokens]
    · simp [hbit, hown, hself, dec_n_ld_tokens]
    · simp [hbit, hown, hself, dec_n_ld_tokens]
    · omega
  · simp [hbit, hown, hself]

/-- Witness for C3: this core's token at address 1 with `fair` on and
two tokens outstanding: the fairness flag is raised, the count drops to
one, and the token goes back on core 0's queue. -/
theorem prerun_token_spec_witness :
    has_thread_bit 1 = true ∧
    ((fun _ => CownObj.mk (some 0)) (clear_thread_bit 1)).owning_core = some 0 ∧
    (2 : Nat) ≤ 2 ∧
    prerun true (fun _ => CownObj.mk (some 0)) 0 false 2 1 =
      some { is_cown := false
             ssf := if 0 = 0 then (if true then true else false) else false
             n_ld_tokens := if 0 = 0 ∧ 0 < 2 then 2 - 1 else 2
             enqueues := [(0, 1)]
             registered := false } :=
  ⟨rfl, rfl, by decide,
   prerun_token_spec true (fun _ => CownObj.mk (some 0)) 0 0 false 2 1 rfl rfl
     (by decide)⟩

/-- C4: the reschedule policy after `cown->run` returns true, case by
case: under `should_steal_for_fairness` the cown is tail-enqueued and
the slot cleared; else a successful local pop `n` tail-enqueues the cown
and continues with `n`; else with nothing old in the queue `n_ld_tokens`
resets to 0 and, when `fair` holds and `fast_steal` succeeds, the cown
is tail-enqueued and the stolen one continues; in every remaining case
the same cown continues with no enqueue. -/
theorem reschedule_policy_spec (nld : Nat) (c n s : Ptr) (old fair : Bool)
    (lp fs : Option Ptr) :
    reschedule ⟨lp, old, fair, fs⟩ true nld c =
      { slot := none, enqueued := [c], n_ld_tokens := nld } ∧
    reschedule ⟨some n, old, fair, fs⟩ false nld c =
      { slot := some n, enqueued := [c], n_ld_tokens := nld } ∧
    reschedule ⟨none, true, true, some s⟩ false nld c =
      { slot := some s, enqueued := [c], n_ld_tokens := 0 } ∧
    reschedule ⟨none, true, true, none⟩ false nld c =
      { slot := some c, enqueued := [], n_ld_tokens := 0 } ∧
    reschedule ⟨none, true, false, fs⟩ false nld c =
      { slot := some c, enqueued := [], n_ld_tokens := 0 } ∧
    reschedule ⟨none, false, fair, fs⟩ false nld c =
      { slot := some c, enqueued := [], n_ld_tokens := nld } :=
  ⟨rfl, rfl, rfl, rfl, rfl, rfl⟩

/-- The inductive invariant on the epoch pair: `send_epoch = EPOCH_A`
forces `prev_epoch = EPOCH_B`, and `send_epoch = EPOCH_B` forces
`prev_epoch ≠ EPOCH_B`. -/
def ldInv (c : LdCtx) : Prop :=
  (c.send_epoch = EpochMark.EPOCH_A → c.prev_epoch = EpochMark.EPOCH_B) ∧
  (c.send_epoch = EpochMark.EPOCH_B → c.prev_epoch ≠ EpochMark.EPOCH_B)

theorem ldInv_init : ldInv ldInit := by
  simp [ldInv, ldInit]

theorem ldInv_step (c : LdCtx) (op : LdOp) (h : ldInv c) :
    ldInv (ldOpApply c op) := by
  obtain ⟨h1, h2⟩ := h
  cases op with
  | prescan => simp [ldOpApply, enter_prescan, ldInv]
  | scan =>
    by_cases hp : c.prev_epoch = EpochMark.EPOCH_B <;>
      simp [ldOpApply, enter_scan, ldInv, hp]

theorem ldInv_run (ops : List LdOp) : ldInv (ldRun ops) := by
  suffices h : ∀ c, ldInv c → ldInv (List.foldl ldOpApply c ops) from
    h ldInit ldInv_init
  induction ops with
  | nil => intro c hc; exact hc
  | cons op rest ih =>
    intro c hc
    exact ih (ldOpApply c op) (ldInv_step c op hc)

/-- C5: starting from the initialisers `send_epoch = EPOCH_A`,
`prev_epoch = EPOCH_B`, every `send_epoch` change produced by a further
`enter_prescan` or `enter_scan` — after any sequence of such calls, in
whatever order `ld_protocol` issues them — follows the cycle
EPOCH_A → EPOCH_NONE → EPOCH_B → EPOCH_NONE → EPOCH_A; no other
transition occurs. -/
theorem send_epoch_cycle (ops : List LdOp) (op : LdOp) :
    (ldOpApply (ldRun ops) op).send_epoch = (ldRun ops).send_epoch ∨
    epochCycleStep (ldRun ops).send_epoch
      (ldOpApply (ldRun ops) op).send_epoch = true := by
  obtain ⟨h1, h2⟩ := ldInv_run ops
  cases op with
  | prescan =>
    cases hs : (ldRun ops).send_epoch <;>
      simp [ldOpApply, enter_prescan, hs, epochCycleStep]
  | scan =>
    cases hs : (ldRun ops).send_epoch <;>
      cases hp : (ldRun ops).prev_epoch <;>
      simp_all [ldOpApply, enter_scan, epochCycleStep]

/-- C6: entering `Scan` — directly or from `PreScan` — flips
`send_epoch` to EPOCH_A exactly when `prev_epoch` (as read by
`enter_scan`) is EPOCH_B and to EPOCH_B otherwise, invokes the core's
registry scan once, sets `n_ld_tokens` to 2 and clears
`scheduled_unscanned_cown`; on the direct path `enter_prescan` runs
first, so the `prev_epoch` read is the saved `send_epoch`. -/
theorem enter_scan_spec (c : LdCtx) (sprev : ThreadState) :
    (enter_scan c).send_epoch =
      (if c.prev_epoch = EpochMark.EPOCH_B then EpochMark.EPOCH_A
       else EpochMark.EPOCH_B) ∧
    (enter_scan c).core_scans = c.core_scans + 1 ∧
    (enter_scan c).n_ld_tokens = 2 ∧
    (enter_scan c).scheduled_unscanned_cown = false ∧
    (scan_case_actions sprev c).n_ld_tokens = 2 ∧
    (scan_case_actions sprev c).scheduled_unscanned_cown = false ∧
    (scan_case_actions sprev c).core_scans = c.core_scans + 1 ∧
    (scan_case_actions sprev c).send_epoch =
      (if (if sprev = ThreadState.PreScan then c else enter_prescan c).prev_epoch
           = EpochMark.EPOCH_B
       then EpochMark.EPOCH_A else EpochMark.EPOCH_B) := by
  by_cases hp : sprev = ThreadState.PreScan <;>
    simp [enter_scan, scan_case_actions, enter_prescan, hp]

/-- C7: one iteration of the production-configuration steal loop calls
the thread pool's `pause()` only when the timestamp-counter delta has
reached `TSC_QUIESCENCE_TIMEOUT` (10^6 cycles) and the worker's LD state
is `NotInLD`; in any other LD state the worker never parks. -/
theorem steal_pause_only (st : ThreadState) (obs : StealObs)
    (h : steal_iter st obs = StealStepResult.pauseCall) :
    st = ThreadState.NotInLD ∧ TSC_QUIESCENCE_TIMEOUT ≤ obs.tscDelta := by
  unfold steal_iter at h
  rcases hl : obs.localPop with _ | c
  · rcases hv : (if obs.victimIsSelf then none else obs.victimPop) with _ | c
    · by_cases ht : obs.tscDelta < TSC_QUIESCENCE_TIMEOUT
      · simp [hl, hv, ht] at h
      · by_cases hs : st = ThreadState.NotInLD
        · exact ⟨hs, by omega⟩
        · simp [hl, hv, ht, hs] at h
    · simp [hl, hv] at h
  · simp [hl] at h

/-- Witness for C7: with an empty local queue, self victim and a delta of
exactly the timeout, a `NotInLD` worker parks. -/
theorem steal_pause_only_witness :
    steal_iter ThreadState.NotInLD ⟨none, true, none, 1000000⟩ =
      StealStepResult.pauseCall ∧
    (ThreadState.NotInLD = ThreadState.NotInLD ∧
     TSC_QUIESCENCE_TIMEOUT ≤ 1000000) :=
  ⟨rfl, steal_pause_only ThreadState.NotInLD ⟨none, true, none, 1000000⟩ rfl⟩

theorem ldTok_fold_bound (evs : List LdTokEvent) :
    ∀ n, n ≤ 2 →
      ∃ m, List.foldl (fun o e => Option.bind o (fun k => ldTokStep k e))
             (some n) evs = some m ∧ m ≤ 2 := by
  induction evs with
  | nil => intro n h; exact ⟨n, rfl, h⟩
  | cons e rest ih =>
    intro n h
    have hstep : ∃ k, ldTokStep n e = some k ∧ k ≤ 2 := by
      cases e with
      | resetRunInner => exact ⟨0, rfl, by omega⟩
      | resetSteal => exact ⟨0, rfl, by omega⟩
      | scanSet2 => exact ⟨2, rfl, by omega⟩
      | tokenLocalPop =>
        by_cases h0 : 0 < n
        · have h12 : n = 1 ∨ n = 2 := by omega
          exact ⟨n - 1, by simp [ldTokStep, h0, dec_n_ld_tokens, h12], by omega⟩
        · exact ⟨n, by simp [ldTokStep, h0], h⟩
      | tokenRemotePop => exact ⟨n, rfl, h⟩
    obtain ⟨k, hk, hk2⟩ := hstep
    obtain ⟨m, hm, hm2⟩ := ih k hk2
    exact ⟨m, by simpa [hk] using hm, hm2⟩

/-- C10: along every sequence of the scheduler's writes to `n_ld_tokens`
(the two resets, `enter_scan`'s set-to-2, and local/remote token pops),
the counter stays in {0, 1, 2} and the `dec_n_ld_tokens` assertion
`n_ld_tokens == 1 || n_ld_tokens == 2` never fails (no run reaches
`none`); remote-token pops skip the decrement entirely, and `enter_scan`
— the only increment — writes exactly 2. -/
theorem n_ld_tokens_invariant (evs : List LdTokEvent) :
    (∃ m, ldTokRun evs = some m ∧ m ≤ 2) ∧
    (∀ n : Nat, ldTokStep n LdTokEvent.tokenRemotePop = some n) ∧
    (∀ c : LdCtx, (enter_scan c).n_ld_tokens = 2) :=
  ⟨ldTok_fold_bound evs 0 (by omega), fun _ => rfl, fun _ => rfl⟩

end VeronaSched
